import Mathlib

/-!
Shallow embedding of the kramer-control/brain-client library
(src/src/BrainDevice.js, src/src/BrainInfo.js — the concatenation of
BrainInfo.js / BrainClient.js / ConnectionStates.js — and the HTTP client in
src/unnamed/part_000), together with proofs of the behavioural claims about it.

JavaScript objects used as string-keyed dictionaries are embedded as
association lists (insertion-ordered, matching JS object key order);
`sfind` is property lookup, `jset` is property assignment (overwrite keeps the
original position, a fresh key is appended, as in JS).
-/

namespace BrainClientModel

/-- JS property lookup `m[k]` on a string-keyed object: first binding wins. -/
def sfind {α : Type} (m : List (String × α)) (k : String) : Option α :=
  match m with
  | [] => none
  | (k', v) :: rest => if k' = k then some v else sfind rest k

/-- JS property assignment `m[k] = v`: overwrite in place, append a fresh key. -/
def jset {α : Type} (m : List (String × α)) (k : String) (v : α) :
    List (String × α) :=
  match m with
  | [] => [(k, v)]
  | (k', v') :: rest => if k' = k then (k', v) :: rest else (k', v') :: jset rest k v

/-!
JS numbers produced by `parseFloat` are abstracted: none of the claims depends
on IEEE-754 arithmetic, only on *which* coercion function is applied to the
wire string.  `JsNumber` therefore records the argument `parseFloat` was
applied to, and `parseFloat` is its constructor.
-/

/-- Abstract JS float: the result of `parseFloat` on some wire string. -/
structure JsNumber where
  ofParseFloat : String
deriving DecidableEq, Repr

/-- JS `parseFloat`, abstracted (see `JsNumber`). -/
def parseFloat (s : String) : JsNumber := ⟨s⟩

/-- A JS value stored in a state record's `value` / `normalizedValue` slots. -/
inductive JsValue
  | null
  | undef
  | str (s : String)
  | num (n : JsNumber)
deriving DecidableEq, Repr

/-- A normalised state record, as produced by `BrainDevice._normalizeState`
(BrainDevice.js lines 139-159) and mutated by `processStateChanges`. -/
structure StateRec where
  name : String
  id : String
  /-- `primitive_type` from the driver, e.g. "number", "string", "boolean". -/
  type : String
  value : JsValue := .null
  normalizedValue : JsValue := .null
  /-- `_isCustomState`, set only for custom states on the system device. -/
  isCustomState : Bool := false
deriving DecidableEq, Repr

/-- One record of an inbound `state_change_message`'s `state_changes` array
(see the sample in BrainDevice.js lines 579-599). -/
structure StateChange where
  state_id : String
  state_key : String := ""
  state_name : String := ""
  state_normalized_value : String
  state_value : String
deriving DecidableEq, Repr

/-- The payload emitted with the per-device `STATE_CHANGED` event
(`normalizedChange` in BrainDevice.js lines 608-614: the raw wire strings). -/
structure NormalizedChange where
  id : String
  key : String
  name : String
  value : String
  normalizedValue : String
deriving DecidableEq, Repr

/-- A command record as built by `BrainDevice._enumDriver`
(BrainDevice.js lines 180-228).  `stateIds` are the keys of `command.states`,
i.e. the state ids referenced by the command's dynamic parameters, in
enumeration order. -/
structure Command where
  id : String
  name : String
  capabilityId : String
  categoryId : String
  stateIds : List String
deriving DecidableEq, Repr

/-- The mutable per-device state of a `BrainDevice` instance that the claims
touch:  the normalised state catalog, the `_hasStateChanges` /
`_watchStateRequested` flags, the `_statePromise` deferred (modelled as
`statePromise = true` iff a pending deferred exists), the `_specificStates`
mask, and the number of attached `STATE_CHANGED` listeners. -/
structure Device where
  id : String
  name : String := ""
  device_driver_id : String := ""
  statesById : List (String × StateRec) := []
  hasStateChanges : Bool := false
  watchStateRequested : Bool := false
  statePromise : Bool := false
  specificStates : Option (List (String × Bool)) := none
  stateChangedListeners : Nat := 0
deriving DecidableEq, Repr

/-- The file `utils/system-driver-id` is not under src/.
Modelled from the spec: the system device is recognised by comparing
`device_driver_id` against an opaque constant driver id (spec §3, glossary:
a synthetic "system device"); only equality with the constant matters, so its
concrete UUID text is immaterial. -/
def SYSTEM_DRIVER_ID : String := "system-driver-id"

/-- Model of `BrainDevice.isSystemDevice` (BrainDevice.js lines 242-244). -/
def Device.isSystemDevice (d : Device) : Bool :=
  d.device_driver_id = SYSTEM_DRIVER_ID

/-- Events produced while a device processes inbound state changes. -/
inductive DevEvent
  | stateChanged (payload : NormalizedChange)
  | statePromiseResolved
deriving DecidableEq, Repr

/-- The catalog update inside `processStateChanges` (BrainDevice.js lines
616-630): if `state_id` is in `_statesById`, set the record's `value` to the
wire `state_value` and its `normalizedValue` to `parseFloat` of the wire
normalized value when the state's `type` is "number", the raw string
otherwise; an unknown state id is only logged. -/
def applyChangeToCatalog (statesById : List (String × StateRec))
    (c : StateChange) : List (String × StateRec) :=
  match sfind statesById c.state_id with
  | none => statesById
  | some st =>
    jset statesById c.state_id
      { st with
        value := .str c.state_value,
        normalizedValue :=
          if st.type = "number" then .num (parseFloat c.state_normalized_value)
          else .str c.state_normalized_value }

/-- The deferred-completion logic inside `processStateChanges`
(BrainDevice.js lines 637-655), kept exactly as written: if `_statePromise`
exists, `completed` starts `true`; when `_specificStates` exists and has a
binding for the changed id, that binding is set to `true` and `completed`
is recomputed as
`Object.values(this._specificStates).filter(flag => flag).length === 0`
— note the filter keeps the *true* flags, although the comment on line 641
says "Only completed if all _specificStates set to true".  When `completed`,
the deferred is resolved and dropped.  `promiseStepCore` computes the two
fields this logic touches (the deferred and the mask) plus the resolution
event; `promiseStep` writes them back into the device. -/
def promiseStepCore (statePromise : Bool)
    (specific : Option (List (String × Bool))) (changedId : String) :
    Bool × Option (List (String × Bool)) × List DevEvent :=
  if statePromise then
    let (specific', completed) :=
      match specific with
      | some ss =>
        if (sfind ss changedId).isSome then
          let ss' := jset ss changedId true
          let fl := (ss'.map Prod.snd).filter (fun flag => flag)
          (some ss', fl.length == 0)
        else (specific, true)
      | none => (specific, true)
    if completed then (false, specific', [DevEvent.statePromiseResolved])
    else (true, specific', [])
  else (statePromise, specific, [])

/-- See `promiseStepCore`. -/
def promiseStep (d : Device) (changedId : String) : Device × List DevEvent :=
  let r := promiseStepCore d.statePromise d.specificStates changedId
  ({ d with statePromise := r.1, specificStates := r.2.1 }, r.2.2)

/-- The per-change body of `processStateChanges` (BrainDevice.js lines
600-659): build `normalizedChange` from the raw wire strings, update the
catalog, run the deferred-completion logic, and emit `STATE_CHANGED` with
`normalizedChange`. -/
def processOneChange (d : Device) (c : StateChange) : Device × List DevEvent :=
  let normalizedChange : NormalizedChange :=
    { id := c.state_id, key := c.state_key, name := c.state_name,
      value := c.state_value, normalizedValue := c.state_normalized_value }
  let d1 := { d with statesById := applyChangeToCatalog d.statesById c }
  ((promiseStep d1 c.state_id).1,
   (promiseStep d1 c.state_id).2 ++ [DevEvent.stateChanged normalizedChange])

/-- Model of `BrainDevice.processStateChanges` (BrainDevice.js lines 576-660):
sets `_hasStateChanges`, then handles each change in order. -/
def processStateChanges (d : Device) (changes : List StateChange) :
    Device × List DevEvent :=
  let rec go (d : Device) : List StateChange → Device × List DevEvent
    | [] => (d, [])
    | c :: rest =>
      ((go (processOneChange d c).1 rest).1,
       (processOneChange d c).2 ++ (go (processOneChange d c).1 rest).2)
  go { d with hasStateChanges := true } changes

/-- A message a device asks its client to send (`_client.watchStates`). -/
inductive DevMsg
  | watch (deviceId : String)
  | unwatch (deviceId : String)
deriving DecidableEq, Repr

/-- Model of `BrainDevice._watchStateChanges` (BrainDevice.js lines 550-557):
suppressed while `_watchStateRequested` is set; otherwise sets the flag and
sends one watch request. -/
def watchStateChanges (d : Device) : Device × List DevMsg :=
  if d.watchStateRequested then (d, [])
  else ({ d with watchStateRequested := true }, [DevMsg.watch d.id])

/-- Model of `BrainDevice._unwatchStateChanges` (BrainDevice.js lines 559-564):
clears the flag and sends one unwatch request. -/
def unwatchStateChanges (d : Device) : Device × List DevMsg :=
  ({ d with watchStateRequested := false }, [DevMsg.unwatch d.id])

/-- The synchronous prefix of `BrainDevice._ensureStateValues`
(BrainDevice.js lines 246-257): when `_hasStateChanges` is unset, ensure a
`_statePromise` deferred exists, store `_specificStates`, and request the
state watch; when `_hasStateChanges` is set, return at once. -/
def ensureStateValuesStart (d : Device)
    (specific : Option (List (String × Bool))) : Device × List DevMsg :=
  if d.hasStateChanges then (d, [])
  else
    let d := { d with statePromise := true, specificStates := specific }
    watchStateChanges d

/-- The waiting setup performed by `BrainDevice.sendCommand` after the
command envelope has been sent (BrainDevice.js lines 475-481): build the
`specificStates` mask with every referenced state id mapped to `false`, clear
`_hasStateChanges`, and enter `_ensureStateValues`. -/
def sendCommandAwaitSetup (d : Device) (cmd : Command) : Device × List DevMsg :=
  let specificStates := cmd.stateIds.map (fun i => (i, false))
  ensureStateValuesStart { d with hasStateChanges := false } (some specificStates)

/-- The result mapping `BrainDevice.sendCommand` resolves with
(BrainDevice.js lines 483-489): for each key of `command.states`, the current
`value` of that state in the device catalog (`undef` models the JS lookup of
a missing property). -/
def sendCommandResults (d : Device) (cmd : Command) : List (String × JsValue) :=
  cmd.stateIds.map (fun i =>
    (i, match sfind d.statesById i with
        | some st => st.value
        | none => JsValue.undef))

/-!
Connection-state strings (ConnectionStates.js, exported verbatim).
-/

def CONNECTION_CONNECTING : String := "Connecting ..."
def CONNECTION_FAILURE : String := "Connection Failure"
def CONNECTION_DISCONNECTED : String := "Brain disconnected"
def CONNECTION_RECONNECTING : String := "Reconnecting to brain ..."
def CONNECTION_AUTHORIZING : String := "Authorizing ..."
def CONNECTION_UNAUTHORIZED : String := "Unauthorized Connection"
def CONNECTION_ACTIVE : String := "Connection Active"
def CONNECTION_SYNCHRONIZING : String := "Synchronizing ..."

def DEFAULT_BRAIN_PORT : Nat := 8000

/-- One action inside the body of a `send_macro_message`
(`sendCommand` lines 442-459, `setCustomState` lines 383-396; the
`genId()`-generated ids are elided — no claim depends on them). -/
inductive BrainAction
  | commandAction (capabilityId categoryId commandId commandName
      deviceDriverId deviceId : String) (staticParams : List (String × String))
  | stateChangeAction (deviceId stateId stateName newValue : String)
deriving DecidableEq, Repr

/-- Body of a `ws_message_wrapper` envelope. -/
inductive WrapperBody
  | watchStatesBody (deviceId : String) (watchedStates : List String)
      (watch : Bool)
  | sendActionsBody (actions : List BrainAction)
  | otherBody (tag : String)
deriving DecidableEq, Repr

/-- An outbound WebSocket message handed to `BrainClient.sendData`. -/
inductive OutMessage
  | passcodeAuthMsg (token : String)
  | getBrainStatMessage
  | getExpressModeFlagMsg
  | wsWrapper (method : String) (path : String) (body : WrapperBody)
deriving DecidableEq, Repr

/-- Events emitted by the client that the claims mention. -/
inductive ClientEvent
  | connectionStatusChanged (status : String)
  | stateChanged (deviceId : String) (payload : NormalizedChange)
  | statePromiseResolved (deviceId : String)
  | watchResent (deviceId : String)
deriving DecidableEq, Repr

/-- The mutable state of a `BrainClient` instance that the claims touch. -/
structure Client where
  ipAddress : Option String := none
  connectionStatus : Option String := none
  isReconnecting : Bool := false
  isConnected : Bool := false
  isAuthenticated : Bool := false
  manuallyDisconnected : Bool := false
  devicesEnumerated : Bool := false
  devices : List (String × Device) := []
  /-- `some rs` iff `this.ws` is set, where `rs` is the WebSocket readyState. -/
  ws : Option Nat := none
  lastDataSent : Option OutMessage := none
  /-- `true` iff `this.watchdog` is set, i.e. the `ConnectionWatchdog` was
  constructed — which happens only on `prepareConnection`'s success path
  (BrainInfo.js line 533).  On a fresh client, or one whose bootstrap
  failed, `this.watchdog` is `undefined`. -/
  watchdog : Bool := false
deriving DecidableEq, Repr

/-- The `CONNECTION_STATUS_CHANGED` payloads inside an event list, in
emission order. -/
def statusChangedPayloads (evs : List ClientEvent) : List String :=
  evs.filterMap (fun e =>
    match e with
    | .connectionStatusChanged s => some s
    | _ => none)

/-- Model of `BrainClient._setConnectionStatus` (BrainInfo.js lines 419-432): store the
status, emit one `CONNECTION_STATUS_CHANGED` event carrying it, and — when the
new status is `CONNECTION_ACTIVE` while `isReconnecting` — clear the flag and
call `_reconnected` on every device (each device with `_watchStateRequested`
re-sends its watch request, BrainDevice.js lines 566-572). -/
def setConnectionStatus (c : Client) (status : String) :
    Client × List ClientEvent :=
  let c := { c with connectionStatus := some status }
  let evs := [ClientEvent.connectionStatusChanged status]
  if status = CONNECTION_ACTIVE ∧ c.isReconnecting then
    ({ c with isReconnecting := false },
     evs ++ (c.devices.filter (fun p => p.2.watchStateRequested)).map
         (fun p => ClientEvent.watchResent p.1))
  else (c, evs)

/-- Model of `BrainClient.sendData` (BrainInfo.js lines 973-980): transmit over the
WebSocket only when `this.ws` is set and `isConnected`; in every case record
the message in `_lastDataSent` and return normally.  The second component is
the list of messages actually transmitted. -/
def sendData (c : Client) (d : OutMessage) : Client × List OutMessage :=
  let transmitted := if c.ws.isSome ∧ c.isConnected then [d] else []
  ({ c with lastDataSent := some d }, transmitted)

/-- Model of `BrainClient.submitPin` (BrainInfo.js lines 1274-1281). -/
def submitPin (c : Client) (pin : String) : Client × List OutMessage :=
  sendData c (.passcodeAuthMsg pin)

/-- Model of `BrainClient.queryExpressModeEnabled` (BrainInfo.js lines 1305-1311). -/
def queryExpressModeEnabled (c : Client) : Client × List OutMessage :=
  sendData c .getExpressModeFlagMsg

/-- Model of `BrainClient.watchStates` (BrainInfo.js lines 1423-1456): throw
when `device_id` is falsy (modelled as the empty string); then line 1429
calls `this.watchdog.enable()` — when the watchdog was never constructed
(`this.watchdog` undefined) that property access throws a synchronous
TypeError; when it exists, `enable()` is an async fire-and-forget call that
transmits nothing synchronously (while disconnected its `getDevice` await
suspends on the unresolved connection promise).  Finally the
`watch_states_message` wrapper is handed to `sendData`. -/
def watchStates (c : Client) (deviceId : String) (states : List String)
    (unwatch : Bool) : Except String (Client × List OutMessage) :=
  if deviceId = "" then .error "device_id required"
  else if c.watchdog then
    .ok (sendData c (.wsWrapper "POST" "/api/v1/watch-states"
      (.watchStatesBody deviceId states (if unwatch then false else true))))
  else .error "TypeError: this.watchdog is undefined"

/-- The send performed by `BrainDevice.sendCommand` (BrainDevice.js lines
439-473): one `command` action wrapped in a `send_macro_message`, with static
parameter names upper-cased and values stringified. -/
def sendCommandSend (c : Client) (d : Device) (cmd : Command)
    (params : List (String × String)) : Client × List OutMessage :=
  sendData c (.wsWrapper "POST" "/api/v1/send-macro"
    (.sendActionsBody [BrainAction.commandAction cmd.capabilityId
      cmd.categoryId cmd.id cmd.name d.device_driver_id d.id
      (params.map (fun p => (p.1.toUpper, p.2)))]))

/-- The send performed by `BrainDevice.setCustomState` (BrainDevice.js lines
380-410): one `state_change` action with the single static parameter
`New_Value` holding the stringified value. -/
def setCustomStateSend (c : Client) (d : Device) (stateId stateName value : String) :
    Client × List OutMessage :=
  sendData c (.wsWrapper "POST" "/api/v1/send-macro"
    (.sendActionsBody [BrainAction.stateChangeAction d.id stateId stateName value]))

/-- Model of `BrainClient.disconnect`'s private helper `_disconnect` (BrainInfo.js
lines 956-967): drop the connection flags and re-create the auth deferred;
the device map is left untouched. -/
def internalDisconnect (c : Client) : Client :=
  { c with isConnected := false, isAuthenticated := false }

/-- Model of `BrainClient.disconnect` (BrainInfo.js lines 945-950): empty the device
map, clear `_devicesEnumerated`, set `_manuallyDisconnected`, then
`_disconnect`. -/
def disconnect (c : Client) : Client :=
  internalDisconnect
    { c with devices := [], devicesEnumerated := false, manuallyDisconnected := true }

/-- The `state_change_message` arm of `BrainClient._incomingBrainEvent`
(BrainInfo.js lines 1185-1198): route the change list to the device with the
message's `device_id`; an unknown device id is only logged. -/
def incomingStateChangeMessage (c : Client) (deviceId : String)
    (changes : List StateChange) : Client × List ClientEvent :=
  match sfind c.devices deviceId with
  | none => (c, [])
  | some d =>
    ({ c with devices := jset c.devices deviceId (processStateChanges d changes).1 },
     (processStateChanges d changes).2.map (fun e =>
       match e with
       | .stateChanged payload => ClientEvent.stateChanged deviceId payload
       | .statePromiseResolved => ClientEvent.statePromiseResolved deviceId))

/-!
Connection bootstrap: `prepareConnection` / `connectToBrain`
(BrainInfo.js lines 291-305 and 482-538).
-/

/-- The test `ipAddress.indexOf(':') >= 0`, written as structural recursion over the
character list. -/
def hasColon : List Char → Bool
  | [] => false
  | ch :: rest => if ch = ':' then true else hasColon rest

/-- Model of `BrainClient._checkPort` (BrainInfo.js lines 449-456); `":8000"` is
`':' + DEFAULT_BRAIN_PORT`. -/
def checkPort (ipAddress : String) : String :=
  if hasColon ipAddress.data then ipAddress
  else ipAddress ++ ":8000"

/-- Outcome of the REST bootstrap `await this.brainInfo()` inside
`prepareConnection`: `brainInfo` (lines 561-574) throws on transport error or
timeout, otherwise caches the controller-info record (not needed here). -/
inductive BootstrapOutcome
  | ok
  | failed (err : String)
deriving DecidableEq, Repr

/-- The call `this.brainInfo()` as awaited by `prepareConnection`, as an `Except`
mirroring JS exception propagation. -/
def brainInfoCall : BootstrapOutcome → Except String Unit
  | .ok => .ok ()
  | .failed err => .error err

/-- What `prepareConnection` did: the resulting client, the
`CONNECTION_STATUS_CHANGED` payloads it emitted in order, and whether it
reached `_connectSocket` / the watchdog construction. -/
structure PrepareResult where
  client : Client
  statusEvents : List String
  socketOpened : Bool
  watchdogCreated : Bool
deriving DecidableEq, Repr

/-- Model of `BrainClient.prepareConnection` (BrainInfo.js lines 482-538): port-default
the address, set status `CONNECTING`, reset the handshake flags and the device
map, create the REST client, and await `brainInfo`.  The `catch` swallows a
bootstrap failure and bails out by setting status `FAILURE` — no socket is
opened and no watchdog is created.  On success the flags are set and the
socket is opened. -/
def prepareConnection (c : Client) (ipAddress : String)
    (bootstrap : BootstrapOutcome) : PrepareResult :=
  let c0 := { c with ipAddress := some (checkPort ipAddress) }
  let step1 := setConnectionStatus c0 CONNECTION_CONNECTING
  let c1 := { step1.1 with isAuthenticated := false, devices := [],
                           devicesEnumerated := false }
  match brainInfoCall bootstrap with
  | .error _ =>
    let step2 := setConnectionStatus c1 CONNECTION_FAILURE
    { client := step2.1,
      statusEvents := statusChangedPayloads (step1.2 ++ step2.2),
      socketOpened := false, watchdogCreated := false }
  | .ok _ =>
    let c2 := { c1 with manuallyDisconnected := false, isReconnecting := false }
    { client := { c2 with ws := some 1, isConnected := false, watchdog := true },
      statusEvents := statusChangedPayloads step1.2, socketOpened := true,
      watchdogCreated := true }

/-- Value with which `connectToBrain` resolves. -/
inductive ConnectReturn
  /-- Resolved with `BrainClient.CONNECTION_FAILURE` (the bail-out, lines
  297-299). -/
  | failureStatus (status : String)
  /-- The success path continues into `setupConnection`, which awaits further
  WebSocket traffic; the claims stop at this suspension point. -/
  | proceedToSetup
deriving DecidableEq, Repr

/-- Model of `BrainClient.connectToBrain` (BrainInfo.js lines 291-305), up to the
`setupConnection` suspension point.  The `Except` layer mirrors JS exception
propagation out of the returned promise: no branch produces `.error`, because
`prepareConnection` catches the only throwing call on this path. -/
def connectToBrain (c : Client) (ip : String) (bootstrap : BootstrapOutcome) :
    Except String (PrepareResult × ConnectReturn) :=
  let r := prepareConnection c ip bootstrap
  if r.client.connectionStatus = some CONNECTION_FAILURE then
    .ok (r, .failureStatus CONNECTION_FAILURE)
  else
    .ok (r, .proceedToSetup)

/-!
Client registry: `BrainClient.getBrainClient` (BrainInfo.js lines 218-234)
and the cache fill in `_connectSocket` (lines 934-937).  Client object
identity is modelled by a `Nat` tag; `new BrainClient()` allocates a fresh
tag.  A plain string address passes through `_tryAutoIpAddress` unchanged
(strings have no `auto`/`param` property), so the argument is taken to be the
already-resolved endpoint string.
-/

/-- The cache `BrainClient._cachedBrainClients` plus an allocator for fresh client
objects. -/
structure Registry where
  cache : List (String × Nat)
  nextId : Nat
deriving DecidableEq, Repr

/-- Result of one `getBrainClient` call. -/
structure GetBrainClientResult where
  client : Nat
  registry : Registry
  /-- `true` iff the call constructed a client and scheduled
  `connectToBrain` via `setTimeout(..., 0)`; the connect itself is *not* run
  inside `getBrainClient`. -/
  scheduledConnect : Bool
deriving DecidableEq, Repr

/-- Model of `BrainClient.getBrainClient` (BrainInfo.js lines 218-234): return the
cached client for the address if any; otherwise construct one, cache it, and
schedule `connectToBrain` on the next tick. -/
def getBrainClient (r : Registry) (ipAddress : String) : GetBrainClientResult :=
  match sfind r.cache ipAddress with
  | some id => { client := id, registry := r, scheduledConnect := false }
  | none =>
    { client := r.nextId,
      registry := { cache := jset r.cache ipAddress r.nextId,
                    nextId := r.nextId + 1 },
      scheduledConnect := true }

/-- The cache fill in `BrainClient._connectSocket` (BrainInfo.js lines
934-937): when the socket is opened for `this.ipAddress` (already
port-normalised by `prepareConnection`), the client registers itself under
that address if the slot is empty. -/
def connectSocketCacheFill (r : Registry) (clientId : Nat) (ipAddress : String) :
    Registry :=
  match sfind r.cache ipAddress with
  | some _ => r
  | none => { r with cache := jset r.cache ipAddress clientId }

/-- The registry effect of the `connectToBrain` call that `getBrainClient`
scheduled: `prepareConnection` normalises the address with `_checkPort` and,
when the REST bootstrap succeeds, `_connectSocket` registers the client under
the normalised address. -/
def runScheduledConnect (r : Registry) (clientId : Nat) (ipAddress : String)
    (bootstrapOk : Bool) : Registry :=
  if bootstrapOk then connectSocketCacheFill r clientId (checkPort ipAddress)
  else r

/-- The registry invariant maintained by `getBrainClient` alone: every cached
client tag was allocated before `nextId`, and no client object is cached
under two addresses.  (The `_connectSocket` cache fill can break the second
half — that is the C7 counterexample.) -/
def RegistryInv (r : Registry) : Prop :=
  (∀ p ∈ r.cache, p.2 < r.nextId) ∧ (r.cache.map Prod.snd).Nodup

/-!
REST client retry policy: `HttpClient.call` (src/unnamed/part_000 lines
132-286).  The fetch responses are supplied as a synthetic stream; each
attempt consumes one.  The external `async-retry` dependency is modelled by
its documented semantics: a thrown error retries the function up to
`retries` more times, `bail(err)` rejects the promise returned by `retry`
with `err` immediately, and exhausting the retries rejects with the last
thrown error.
-/

/-- One synthetic fetch response: HTTP status, the JSON value of the body
(kept abstract as a string), and the optional `message` field used by the
non-retry 5xx bail (lines 252-255). -/
structure HttpResponse where
  status : Nat
  body : String := ""
  jsonMessage : Option String := none
deriving DecidableEq, Repr

/-- The value a settled `HttpClient.call` promise carries. -/
inductive CallValue
  /-- The parsed JSON body (line 271/283). -/
  | parsed (body : String)
  /-- An `Error` object, identified by its message — `errorCatcher` *returns*
  the error (line 206), which fulfills the promise with the error object. -/
  | errorObj (msg : String)
deriving DecidableEq, Repr

/-- A settled promise: fulfilled with a value, or rejected with an error
message. -/
inductive PromiseResult
  | resolved (v : CallValue)
  | rejected (msg : String)
deriving DecidableEq, Repr

/-- The `retry(async bail => …, retryArgs)` loop of `HttpClient.call`
(lines 217-285), before the final `.catch(errorCatcher)`.  Per attempt
(lines 244-283):

* status 500-599 with autoRetry: `throw` → `async-retry` retries while
  attempts remain, else rejects with the thrown error;
* status 500-599 without autoRetry: `bail` with the body's `message` or
  `"Error Status <s> from server"`;
* status 403: `bail(new Error("Unauthorized"))` — no further fetch;
* anything else: parse and return the JSON body.

Returns the settled result of the `retry` promise and the number of fetches
performed.  An exhausted response stream is a model artifact (`rejected
"model: response stream exhausted"`); the claims always supply enough
responses. -/
def retryRun (autoRetry : Bool) : Nat → List HttpResponse → Nat →
    PromiseResult × Nat
  | _, [], fetches => (.rejected "model: response stream exhausted", fetches)
  | remaining, res :: rest, fetches =>
    let fetches := fetches + 1
    if 500 ≤ res.status ∧ res.status ≤ 599 then
      if autoRetry then
        match remaining with
        | n + 1 => retryRun autoRetry n rest fetches
        | 0 => (.rejected "Retry, pretty please.", fetches)
      else
        (.rejected ((res.jsonMessage).getD
          ("Error Status " ++ toString res.status ++ " from server")), fetches)
    else if res.status = 403 then
      (.rejected "Unauthorized", fetches)
    else
      (.resolved (.parsed res.body), fetches)

/-- The `autoRetry` option: `none` = absent/false, `some none` = `true`,
`some (some n)` = `{retries: n}`. -/
def effectiveRetries : Option (Option Nat) → Nat
  | none => 0
  -- `autoRetry ? (autoRetry.retries ? autoRetry.retries : 10) : 0`
  -- (lines 187-192); note `{retries: 0}` is falsy in JS and also yields 10.
  | some none => 10
  | some (some n) => if n = 0 then 10 else n

/-- Model of `HttpClient.call` (lines 132-286) for a synthetic response stream:
run the retry loop, then apply `.catch(errorCatcher)` — `errorCatcher`
*returns* the error (line 206, the `throw err` is commented out), so a
rejection of the retry promise fulfills the overall promise with the error
object.  Returns the settled promise and the number of fetches performed. -/
def httpCall (autoRetry : Option (Option Nat)) (responses : List HttpResponse) :
    PromiseResult × Nat :=
  let run := retryRun autoRetry.isSome (effectiveRetries autoRetry) responses 0
  (match run.1 with
   | .rejected e => .resolved (.errorObj e)
   | ok => ok, run.2)

/-!
`BrainDevice.setCustomState` (BrainDevice.js lines 366-417), key-resolution
and validation.  The decisive line is 371:

  `const state = key.id ? key : this.getState(key);`

`getState` is `async` and the call is **not awaited**, so in the string-key
branch the local `state` is a pending `Promise` object.
-/

/-- The `key` argument: a state ID/Name string, or a state object (as
returned by `getStates`/`getCustomStates`). -/
inductive SCKeyArg
  | strKey (s : String)
  | objKey (st : StateRec)
deriving DecidableEq, Repr

/-- The JS value of the local `state` after line 371. -/
inductive SCStateRef
  /-- The unawaited `Promise` returned by the async `getState(key)`. -/
  | pendingPromise
  /-- The state object passed through as `key` itself. -/
  | stObj (st : StateRec)
deriving DecidableEq, Repr

/-- Line 371: `key.id ? key : this.getState(key)`.  A string has no `id`
property (undefined, falsy); a state object's `id` is truthy unless it is the
empty string.  Both else-branches produce the pending promise. -/
def scResolveState : SCKeyArg → SCStateRef
  | .strKey _ => .pendingPromise
  | .objKey st => if st.id = "" then .pendingPromise else .stObj st

/-- Line 372 truthiness of `state`: both a `Promise` object and a state
object are truthy, so the `if(!state)` guard can never fire. -/
def scStateTruthy : SCStateRef → Bool
  | .pendingPromise => true
  | .stObj _ => true

/-- Line 376 truthiness of `state._isCustomState`: a `Promise` has no such
property (undefined, falsy); a state object carries its flag. -/
def scStateIsCustom : SCStateRef → Bool
  | .pendingPromise => false
  | .stObj st => st.isCustomState

/-- How `setCustomState` settles, up to the macro send. -/
inductive SetCustomStateOutcome
  /-- `throw new ErrorNotSystemDevice(...)` (line 368). -/
  | thrownNotSystemDevice
  /-- `throw new ErrorInvalidState("Invalid state key ... does not match any
  known custom state Name or ID")` (line 373). -/
  | thrownInvalidStateUnknown
  /-- `throw new ErrorInvalidState("State ... is not a custom state ...")`
  (line 377). -/
  | thrownInvalidStateNotCustom
  /-- Validation passed; the `state_change` macro for this state id is sent
  with the stringified value (lines 380-416). -/
  | sent (stateId : String) (newValue : String)
deriving DecidableEq, Repr

/-- Model of `BrainDevice.setCustomState` (lines 366-417), translated check by
check. -/
def setCustomState (d : Device) (key : SCKeyArg) (value : String) :
    SetCustomStateOutcome :=
  if ¬ d.isSystemDevice then .thrownNotSystemDevice
  else
    let state := scResolveState key
    if ¬ scStateTruthy state then .thrownInvalidStateUnknown
    else if ¬ scStateIsCustom state then .thrownInvalidStateNotCustom
    else
      match state with
      | .stObj st => .sent st.id value
      | .pendingPromise => .thrownInvalidStateNotCustom

/-!
Device subscription lifecycle (claim C9): `BrainDevice.on` / `off`
(BrainDevice.js lines 511-545) and the awaited `getState`/`getStates` entry
`_ensureStateValues` (lines 246-257).  Node's `EventEmitter` listener store
is modelled by the `stateChangedListeners` count; `this._events[sc]` is
absent exactly when the count is zero.
-/

/-- The operations that can trigger or cancel the device's watch
subscription. -/
inductive DevOp
  /-- `device.on(STATE_CHANGED, cb)`: attach a listener, then
  `_watchStateChanges()` (lines 511-518). -/
  | onStateChanged
  /-- An awaited `getState`/`getStates`/`getCustomStates` call entering
  `_ensureStateValues(null)` (lines 246-257, 263-287). -/
  | getStateAwait
  /-- `device.off(STATE_CHANGED, cb)`: remove a listener; when none remain,
  `_unwatchStateChanges()` (lines 533-545). -/
  | offStateChanged
deriving DecidableEq, Repr

/-- One step of the subscription lifecycle. -/
def devStep (d : Device) : DevOp → Device × List DevMsg
  | .onStateChanged =>
    let d := { d with stateChangedListeners := d.stateChangedListeners + 1 }
    watchStateChanges d
  | .getStateAwait =>
    ensureStateValuesStart d none
  | .offStateChanged =>
    let d := { d with stateChangedListeners := d.stateChangedListeners - 1 }
    if d.stateChangedListeners = 0 then unwatchStateChanges d else (d, [])

/-- Run a sequence of subscription operations, collecting the watch/unwatch
requests sent to the client. -/
def devRun (d : Device) : List DevOp → Device × List DevMsg
  | [] => (d, [])
  | op :: rest =>
    ((devRun (devStep d op).1 rest).1,
     (devStep d op).2 ++ (devRun (devStep d op).1 rest).2)

/-- Count the watch requests in a message list. -/
def countWatch (msgs : List DevMsg) : Nat :=
  (msgs.filter (fun m => match m with | .watch _ => true | .unwatch _ => false)).length

/-- The operations that arm (rather than cancel) the subscription. -/
def isTrigger : DevOp → Bool
  | .onStateChanged => true
  | .getStateAwait => true
  | .offStateChanged => false

/-- Whether a settled promise is a rejection. -/
def isRejected : PromiseResult → Bool
  | .rejected _ => true
  | .resolved _ => false

/-!
Concrete fixtures used by the claim theorems and witnesses.
-/

/-- A plain string-typed state, id `S1`. -/
def stS1 : StateRec := { name := "State One", id := "S1", type := "string" }

/-- The system clock tick state, number-typed. -/
def stSecond : StateRec :=
  { name := "Current Second", id := "SECOND_STATE", type := "number" }

/-- A device exposing `S1` and `SECOND_STATE`. -/
def devC1 : Device :=
  { id := "dev-1", statesById := [("S1", stS1), ("SECOND_STATE", stSecond)] }

/-- A command whose single dynamic parameter references state `S1`, so
`command.states` has exactly the key `S1`. -/
def cmdC1 : Command :=
  { id := "CMD_1", name := "Set Thing", capabilityId := "CAP_1",
    categoryId := "CAT_1", stateIds := ["S1"] }

/-- State of `devC1` right after `sendCommand` sent the envelope for `cmdC1` and
entered its await: `_specificStates` maps `S1` to `false` and a fresh
`_statePromise` is pending. -/
def devC1Waiting : Device := (sendCommandAwaitSetup devC1 cmdC1).1

/-- An inbound change for the tracked state `S1`. -/
def chS1 : StateChange :=
  { state_id := "S1", state_normalized_value := "42", state_value := "42" }

/-- An inbound change for the untracked state `SECOND_STATE`. -/
def chSecond : StateChange :=
  { state_id := "SECOND_STATE", state_normalized_value := "7", state_value := "7" }

/-- A custom state (id `CS1`, name `Custom One`) on the system device. -/
def csCS1 : StateRec :=
  { name := "Custom One", id := "CS1", type := "string", isCustomState := true }

/-- A system device carrying the custom state `CS1` under both its id and its
name, as `_enumCustomStates` stores it (BrainDevice.js lines 131-136). -/
def sysDevice : Device :=
  { id := "sys-1", device_driver_id := SYSTEM_DRIVER_ID,
    statesById := [("CS1", csCS1)] }

/-- A non-system device. -/
def nonSysDevice : Device :=
  { id := "dev-2", device_driver_id := "some-other-driver" }

/-- A client already in status `CONNECTION_ACTIVE`. -/
def activeClient : Client := { connectionStatus := some CONNECTION_ACTIVE }

/-- A 502 response. -/
def resp502 : HttpResponse := { status := 502 }

/-- A 403 response. -/
def resp403 : HttpResponse := { status := 403 }

/-- A 200 response with body `okBody`. -/
def resp200 : HttpResponse := { status := 200, body := "okBody" }

/-- The empty client registry. -/
def emptyRegistry : Registry := { cache := [], nextId := 0 }

/-- Result of `getBrainClient` on the empty registry with the port-less address
`brain.local`: constructs client `0` and schedules its connect. -/
def regGet1 : GetBrainClientResult := getBrainClient emptyRegistry "brain.local"

/-- The registry after the scheduled `connectToBrain` ran with a reachable
controller: `_connectSocket` registered client `0` a second time, under the
port-normalised address `brain.local:8000`. -/
def regAfterConnect : Registry :=
  runScheduledConnect regGet1.registry regGet1.client "brain.local" true

/-- A disconnected client (socket handle gone, `isConnected` false) that had
previously connected — its watchdog exists (created at BrainInfo.js line
533) and a device map is left over — the state after a connection loss. -/
def offlineClient : Client :=
  { ipAddress := some "10.0.0.5:8000", ws := none, isConnected := false,
    devices := [("dev-1", devC1)], watchdog := true }

/-- A freshly constructed client: `prepareConnection` never ran, so neither
the socket handle nor the watchdog exists. -/
def freshClient : Client := {}

/-!
Helper lemmas (shared between claims).
-/

theorem sfind_jset_self {α : Type} (m : List (String × α)) (k : String) (v : α) :
    sfind (jset m k v) k = some v := by
  induction m with
  | nil => simp [jset, sfind]
  | cons p rest ih =>
    obtain ⟨k', v'⟩ := p
    by_cases h : k' = k
    · simp [jset, sfind, h]
    · simp [jset, sfind, h, ih]

theorem sfind_jset_ne {α : Type} (m : List (String × α)) (k k' : String) (v : α)
    (h : k' ≠ k) : sfind (jset m k v) k' = sfind m k' := by
  have h' : k ≠ k' := Ne.symm h
  induction m with
  | nil => simp [jset, sfind, h']
  | cons p rest ih =>
    obtain ⟨k₀, v₀⟩ := p
    by_cases h₀ : k₀ = k
    · subst h₀
      simp [jset, sfind, h']
    · simp only [jset, if_neg h₀, sfind]
      by_cases h₁ : k₀ = k'
      · simp [h₁]
      · simp [h₁, ih]

theorem sfind_mem {α : Type} (m : List (String × α)) (k : String) (v : α)
    (h : sfind m k = some v) : (k, v) ∈ m := by
  induction m with
  | nil => simp [sfind] at h
  | cons p rest ih =>
    obtain ⟨k', v'⟩ := p
    by_cases hk : k' = k
    · subst hk
      simp [sfind] at h
      simp [h]
    · simp [sfind, hk] at h
      exact List.mem_cons_of_mem _ (ih h)

theorem sfind_none_jset_append {α : Type} (m : List (String × α)) (k : String)
    (v : α) (h : sfind m k = none) : jset m k v = m ++ [(k, v)] := by
  induction m with
  | nil => simp [jset]
  | cons p rest ih =>
    obtain ⟨k', v'⟩ := p
    by_cases hk : k' = k
    · simp [sfind, hk] at h
    · simp [sfind, hk] at h
      simp [jset, hk, ih h]

theorem sfind_values_ne {α : Type} (m : List (String × α)) (k₁ k₂ : String)
    (v₁ v₂ : α) (hnodup : (m.map Prod.snd).Nodup) (hk : k₁ ≠ k₂)
    (h₁ : sfind m k₁ = some v₁) (h₂ : sfind m k₂ = some v₂) : v₁ ≠ v₂ := by
  intro hv
  have hm₁ := sfind_mem m k₁ v₁ h₁
  have hm₂ := sfind_mem m k₂ v₂ h₂
  have heq : (k₁, v₁) = (k₂, v₂) :=
    List.inj_on_of_nodup_map hnodup hm₁ hm₂ (by simp [hv])
  exact hk (by simpa using congrArg Prod.fst heq)

theorem promiseStep_statesById (d : Device) (i : String) :
    ((promiseStep d i).1).statesById = d.statesById := rfl

theorem processOneChange_statesById (d : Device) (c : StateChange) :
    ((processOneChange d c).1).statesById = applyChangeToCatalog d.statesById c := by
  unfold processOneChange
  simp [promiseStep_statesById]

theorem processStateChanges_single (d : Device) (c : StateChange) :
    (processStateChanges d [c]).1 =
      (processOneChange { d with hasStateChanges := true } c).1 := by
  simp [processStateChanges, processStateChanges.go]

theorem statusChangedPayloads_append (a b : List ClientEvent) :
    statusChangedPayloads (a ++ b)
      = statusChangedPayloads a ++ statusChangedPayloads b := by
  simp [statusChangedPayloads]

theorem statusChangedPayloads_watchResent (l : List (String × Device)) :
    statusChangedPayloads (l.map (fun p => ClientEvent.watchResent p.1)) = [] := by
  induction l with
  | nil => rfl
  | cons p rest ih => simp [statusChangedPayloads] at ih ⊢

theorem countWatch_append (a b : List DevMsg) :
    countWatch (a ++ b) = countWatch a + countWatch b := by
  simp [countWatch, List.filter_append]

theorem devStep_trigger_armed (d : Device) (op : DevOp)
    (ht : isTrigger op = true) (hf : d.watchStateRequested = true) :
    (devStep d op).2 = [] ∧ (devStep d op).1.watchStateRequested = true := by
  cases op with
  | onStateChanged =>
    simp [devStep, watchStateChanges, hf]
  | getStateAwait =>
    by_cases hc : d.hasStateChanges <;>
      simp [devStep, ensureStateValuesStart, watchStateChanges, hf, hc]
  | offStateChanged => simp [isTrigger] at ht

theorem devRun_triggers_le (d : Device) (ops : List DevOp)
    (h : ∀ op ∈ ops, isTrigger op = true) :
    countWatch (devRun d ops).2 ≤ if d.watchStateRequested then 0 else 1 := by
  induction ops generalizing d with
  | nil =>
    simp [devRun, countWatch]
  | cons op rest ih =>
    have hop : isTrigger op = true := h op (List.mem_cons_self op rest)
    have hrest : ∀ o ∈ rest, isTrigger o = true :=
      fun o ho => h o (List.mem_cons_of_mem op ho)
    have hsplit : countWatch (devRun d (op :: rest)).2 =
        countWatch (devStep d op).2 +
          countWatch (devRun (devStep d op).1 rest).2 := by
      simp [devRun, countWatch_append]
    rw [hsplit]
    have hrec := ih (devStep d op).1 hrest
    cases hf : d.watchStateRequested with
    | true =>
      obtain ⟨hmsgs, hflag⟩ := devStep_trigger_armed d op hop hf
      rw [hflag] at hrec
      simpa [hmsgs, countWatch] using hrec
    | false =>
      cases op with
      | onStateChanged =>
        have hflag : (devStep d .onStateChanged).1.watchStateRequested = true := by
          simp [devStep, watchStateChanges, hf]
        rw [hflag] at hrec
        have h0 : countWatch (devRun (devStep d .onStateChanged).1 rest).2 = 0 :=
          Nat.le_zero.mp (by simpa using hrec)
        have hmsgs : (devStep d .onStateChanged).2 = [DevMsg.watch d.id] := by
          simp [devStep, watchStateChanges, hf]
        rw [hmsgs, h0]
        simp [countWatch]
      | getStateAwait =>
        by_cases hc : d.hasStateChanges
        · have hflag : (devStep d .getStateAwait).1.watchStateRequested = false := by
            simp [devStep, ensureStateValuesStart, hc, hf]
          rw [hflag] at hrec
          have hmsgs : (devStep d .getStateAwait).2 = [] := by
            simp [devStep, ensureStateValuesStart, hc]
          simpa [hmsgs, countWatch] using hrec
        · have hflag : (devStep d .getStateAwait).1.watchStateRequested = true := by
            simp [devStep, ensureStateValuesStart, watchStateChanges, hc, hf]
          rw [hflag] at hrec
          have h0 : countWatch (devRun (devStep d .getStateAwait).1 rest).2 = 0 :=
            Nat.le_zero.mp (by simpa using hrec)
          have hmsgs : (devStep d .getStateAwait).2 = [DevMsg.watch d.id] := by
            simp [devStep, ensureStateValuesStart, watchStateChanges, hc, hf]
          rw [hmsgs, h0]
          simp [countWatch]
      | offStateChanged => simp [isTrigger] at hop

theorem retryRun_all5xx (rs : List HttpResponse)
    (h : ∀ r ∈ rs, 500 ≤ r.status ∧ r.status ≤ 599) :
    ∀ remaining acc,
      (retryRun true remaining rs acc).2 = acc + min (remaining + 1) rs.length := by
  induction rs with
  | nil => intro remaining acc; simp [retryRun]
  | cons r rest ih =>
    intro remaining acc
    have hr := h r (List.mem_cons_self r rest)
    have hrest : ∀ x ∈ rest, 500 ≤ x.status ∧ x.status ≤ 599 :=
      fun x hx => h x (List.mem_cons_of_mem r hx)
    cases remaining with
    | zero =>
      simp [retryRun, hr]
    | succ n =>
      simp only [retryRun, hr, and_self, if_true]
      rw [ih hrest n (acc + 1)]
      simp [List.length_cons, Nat.succ_min_succ]
      omega

/-!
Claim theorems.
-/

/-- C1.  The claim says `sendCommand(C, p)` resolves exactly after every
state id referenced by C's dynamic parameters has been updated by a
subsequent inbound state change.  The code violates this: the completion
test on BrainDevice.js lines 642-643 filters the flags that are already
`true` and declares the await completed when *none* are, so (first
conjunct block) an inbound update of the only tracked state `S1` marks its
flag received yet leaves the deferred pending — `sendCommand` does not
resolve although every tracked state has been updated — while (second
block) an inbound update of the untracked `SECOND_STATE` resolves the
deferred although `S1` was never updated.  This contradicts the comment on
line 641 ("Only completed if all _specificStates set to true indicating all
states are received"), so the code, not the claim, is wrong.  The final
conjunct checks the part of the claim the code does satisfy: the result
mapping is keyed exactly by the referenced state ids. -/
theorem C1_sendCommand_completion_inverted :
    devC1Waiting.statePromise = true
    ∧ devC1Waiting.specificStates = some [("S1", false)]
    ∧ (processStateChanges devC1Waiting [chS1]).1.statePromise = true
    ∧ (processStateChanges devC1Waiting [chS1]).1.specificStates
        = some [("S1", true)]
    ∧ DevEvent.statePromiseResolved ∉ (processStateChanges devC1Waiting [chS1]).2
    ∧ (processStateChanges devC1Waiting [chSecond]).1.statePromise = false
    ∧ DevEvent.statePromiseResolved ∈ (processStateChanges devC1Waiting [chSecond]).2
    ∧ (processStateChanges devC1Waiting [chSecond]).1.specificStates
        = some [("S1", false)]
    ∧ (sendCommandResults (processStateChanges devC1Waiting [chS1]).1 cmdC1).map
        Prod.fst = cmdC1.stateIds := by
  decide

/-- C2.  The claim says that on the system device `setCustomState` raises
`InvalidState` exactly when the key does not resolve to a custom state — in
particular a string key naming an existing custom state must not raise it.
The code violates this for every string key: line 371 does not `await` the
async `getState`, so the local `state` is a pending `Promise`, which is
truthy but has no `_isCustomState` property, and line 376 therefore throws
`ErrorInvalidState` even though `CS1` names a genuine custom state in the
device's catalog (the method's own JSDoc documents string ID/Name keys, so
the code is the slip).  The remaining conjuncts check the surrounding claim
parts the code does satisfy: a non-system device raises `NotSystemDevice`,
the system device does not, and passing the custom-state *object* succeeds. -/
theorem C2_setCustomState_string_key_always_invalid :
    sfind sysDevice.statesById "CS1" = some csCS1
    ∧ csCS1.isCustomState = true
    ∧ setCustomState sysDevice (.strKey "CS1") "42" = .thrownInvalidStateNotCustom
    ∧ setCustomState nonSysDevice (.strKey "CS1") "42" = .thrownNotSystemDevice
    ∧ setCustomState nonSysDevice (.objKey csCS1) "42" = .thrownNotSystemDevice
    ∧ setCustomState sysDevice (.objKey csCS1) "42" = .sent "CS1" "42" := by
  decide

/-- C3 (counterexample).  The claim says a transition whose target equals
the current state emits no event.  On a client whose status is already
`CONNECTION_ACTIVE`, `_setConnectionStatus(CONNECTION_ACTIVE)` nevertheless
emits one `CONNECTION_STATUS_CHANGED` event: the function (BrainInfo.js
lines 419-432) never compares the new status with the current one. -/
theorem C3_duplicate_transition_still_emits :
    activeClient.connectionStatus = some CONNECTION_ACTIVE
    ∧ (setConnectionStatus activeClient CONNECTION_ACTIVE).2
        = [ClientEvent.connectionStatusChanged CONNECTION_ACTIVE] := by
  exact ⟨rfl, rfl⟩

/-- C3 (amended).  Every call to `_setConnectionStatus` — equal target
included — emits exactly one `CONNECTION_STATUS_CHANGED` event carrying the
new state string, and stores that string as the current status; duplicate
transitions are not coalesced. -/
theorem C3_every_transition_emits_exactly_one_event
    (c : Client) (status : String) :
    statusChangedPayloads (setConnectionStatus c status).2 = [status]
    ∧ (setConnectionStatus c status).1.connectionStatus = some status := by
  unfold setConnectionStatus
  dsimp only
  by_cases h : status = CONNECTION_ACTIVE ∧ c.isReconnecting = true
  · rw [if_pos h]
    refine ⟨?_, rfl⟩
    rw [statusChangedPayloads_append, statusChangedPayloads_watchResent]
    simp [statusChangedPayloads]
  · rw [if_neg h]
    exact ⟨by simp [statusChangedPayloads], rfl⟩

/-- C4 (counterexample).  The claim says a `[403]` response stream makes the
promise *reject* with an Unauthorized error.  It does not: `bail(new
Error("Unauthorized"))` rejects the inner `retry` promise, but the final
`.catch(errorCatcher)` (part_000 line 285) invokes `errorCatcher`, which
*returns* the error (line 206), so `call` fulfills with the error object.
No retry happens — exactly one fetch is performed. -/
theorem C4_403_fulfills_with_error_object :
    httpCall (some none) [resp403] = (.resolved (.errorObj "Unauthorized"), 1)
    ∧ isRejected (httpCall (some none) [resp403]).1 = false := by
  exact ⟨rfl, rfl⟩

/-- C4 (amended).  With `autoRetry:true`, the response stream
`[502, 502, 200]` is retried and the promise resolves with the parsed 200
body after three fetches; a `[403]` stream performs a single fetch, no
retry, and the promise *fulfills* (it does not reject) with an error object
whose message is `Unauthorized`; and any all-5xx stream is fetched
`min 11 |stream|` times — the initial attempt plus up to the configured
limit of 10 retries. -/
theorem C4_retry_policy (rs : List HttpResponse)
    (h5 : ∀ r ∈ rs, 500 ≤ r.status ∧ r.status ≤ 599) :
    httpCall (some none) [resp502, resp502, resp200]
      = (.resolved (.parsed "okBody"), 3)
    ∧ httpCall (some none) [resp403] = (.resolved (.errorObj "Unauthorized"), 1)
    ∧ (httpCall (some none) rs).2 = min 11 rs.length := by
  refine ⟨rfl, rfl, ?_⟩
  show (retryRun true (effectiveRetries (some none)) rs 0).2 = min 11 rs.length
  rw [show effectiveRetries (some none) = 10 from rfl,
    retryRun_all5xx rs h5 10 0]
  simp

/-- C4 (witness). -/
theorem C4_retry_policy_witness :
    httpCall (some none) [resp502, resp502, resp200]
      = (.resolved (.parsed "okBody"), 3)
    ∧ httpCall (some none) [resp403] = (.resolved (.errorObj "Unauthorized"), 1)
    ∧ (httpCall (some none) (List.replicate 12 resp502)).2
        = min 11 (List.replicate 12 resp502).length :=
  C4_retry_policy (List.replicate 12 resp502) (by decide)

/-- C5.  For any device known to the client and any inbound
`state_change_message` carrying a change for a state id the device knows,
after the dispatcher routes the message the stored record's `value` is the
wire `state_value` (a string) and its `normalizedValue` is `parseFloat` of
the wire `state_normalized_value` when the state's type is `"number"`, and
the raw string otherwise. -/
theorem C5_state_change_applied
    (c : Client) (did : String) (d : Device) (ch : StateChange) (st : StateRec)
    (hdev : sfind c.devices did = some d)
    (hst : sfind d.statesById ch.state_id = some st) :
    ∃ d', sfind ((incomingStateChangeMessage c did [ch]).1).devices did = some d'
      ∧ sfind d'.statesById ch.state_id = some
          { st with
            value := .str ch.state_value,
            normalizedValue :=
              if st.type = "number" then .num (parseFloat ch.state_normalized_value)
              else .str ch.state_normalized_value } := by
  refine ⟨(processStateChanges d [ch]).1, ?_, ?_⟩
  · unfold incomingStateChangeMessage
    rw [hdev]
    exact sfind_jset_self _ _ _
  · rw [processStateChanges_single, processOneChange_statesById]
    show sfind (applyChangeToCatalog d.statesById ch) ch.state_id = _
    unfold applyChangeToCatalog
    rw [hst]
    exact sfind_jset_self _ _ _

/-- C5 (witness). -/
theorem C5_state_change_applied_witness :
    ∃ d', sfind ((incomingStateChangeMessage
          { devices := [("dev-1", devC1)] } "dev-1" [chSecond]).1).devices
        "dev-1" = some d'
      ∧ sfind d'.statesById chSecond.state_id = some
          { stSecond with
            value := .str chSecond.state_value,
            normalizedValue :=
              if stSecond.type = "number"
              then .num (parseFloat chSecond.state_normalized_value)
              else .str chSecond.state_normalized_value } :=
  C5_state_change_applied { devices := [("dev-1", devC1)] } "dev-1" devC1
    chSecond stSecond (by decide) (by decide)

/-- C6.  When the REST bootstrap fails, `connectToBrain` does not throw:
`prepareConnection` catches the `brainInfo` exception and advances the
status to `FAILURE` ("Connection Failure") without opening the WebSocket or
creating the watchdog, the status events are exactly `CONNECTING` then
`FAILURE`, and `connectToBrain` resolves with the failure status as its
return value. -/
theorem C6_bootstrap_failure_resolves_with_failure
    (c : Client) (ip err : String) :
    connectToBrain c ip (.failed err)
      = .ok (prepareConnection c ip (.failed err),
             .failureStatus CONNECTION_FAILURE)
    ∧ (prepareConnection c ip (.failed err)).client.connectionStatus
        = some CONNECTION_FAILURE
    ∧ (prepareConnection c ip (.failed err)).statusEvents
        = [CONNECTION_CONNECTING, CONNECTION_FAILURE]
    ∧ (prepareConnection c ip (.failed err)).socketOpened = false
    ∧ (prepareConnection c ip (.failed err)).watchdogCreated = false := by
  have hconnecting : CONNECTION_CONNECTING = CONNECTION_ACTIVE → False := by decide
  have hfailure : CONNECTION_FAILURE = CONNECTION_ACTIVE → False := by decide
  have hprep : ∀ cl : Client,
      setConnectionStatus cl CONNECTION_CONNECTING =
        ({ cl with connectionStatus := some CONNECTION_CONNECTING },
         [ClientEvent.connectionStatusChanged CONNECTION_CONNECTING]) := by
    intro cl
    unfold setConnectionStatus
    rw [if_neg (fun hh => hconnecting hh.1)]
  have hfail : ∀ cl : Client,
      setConnectionStatus cl CONNECTION_FAILURE =
        ({ cl with connectionStatus := some CONNECTION_FAILURE },
         [ClientEvent.connectionStatusChanged CONNECTION_FAILURE]) := by
    intro cl
    unfold setConnectionStatus
    rw [if_neg (fun hh => hfailure hh.1)]
  have hres : prepareConnection c ip (.failed err) =
      { client :=
          { c with ipAddress := some (checkPort ip),
                   connectionStatus := some CONNECTION_FAILURE,
                   isAuthenticated := false, devices := [],
                   devicesEnumerated := false },
        statusEvents := [CONNECTION_CONNECTING, CONNECTION_FAILURE],
        socketOpened := false, watchdogCreated := false } := by
    unfold prepareConnection
    dsimp only
    rw [hprep, hfail]
    simp [brainInfoCall, statusChangedPayloads]
  refine ⟨?_, ?_, ?_, ?_, ?_⟩ <;>
    simp [connectToBrain, hres]

/-- C7 (counterexample).  The claim says `getBrainClient` returns different
objects for two different endpoint strings.  Not always: `getBrainClient
"brain.local"` constructs client `0` and schedules its connect; when that
connect's bootstrap succeeds, `_connectSocket` (BrainInfo.js lines 934-937)
caches the *same* client again under the port-normalised address
`brain.local:8000`; afterwards `getBrainClient` returns the identical client
object for the two different endpoint strings `brain.local` and
`brain.local:8000`, as cache hits. -/
theorem C7_distinct_endpoints_same_client :
    "brain.local" ≠ "brain.local:8000"
    ∧ regGet1.scheduledConnect = true
    ∧ (getBrainClient regAfterConnect "brain.local").client
        = (getBrainClient regAfterConnect "brain.local:8000").client
    ∧ (getBrainClient regAfterConnect "brain.local").scheduledConnect = false
    ∧ (getBrainClient regAfterConnect "brain.local:8000").scheduledConnect
        = false := by
  decide

/-- C7 (amended).  `getBrainClient` is idempotent per endpoint: called twice
with the same endpoint string it returns the identical client object, and on
a cache miss it constructs the client and schedules `connectToBrain` on the
next tick rather than connecting synchronously (a hit neither constructs nor
schedules).  Two different endpoints return different objects *provided*
every cache entry was created by `getBrainClient` itself (the invariant
`RegistryInv`, which `getBrainClient` preserves); the `_connectSocket`
cache fill can alias one client under a second, port-normalised address, in
which case two different endpoint strings return the identical object. -/
theorem C7_registry_get_or_create
    (r : Registry) (hInv : RegistryInv r) (e e1 e2 : String) (hne : e1 ≠ e2) :
    (getBrainClient (getBrainClient r e).registry e).client
        = (getBrainClient r e).client
    ∧ (getBrainClient (getBrainClient r e1).registry e2).client
        ≠ (getBrainClient r e1).client
    ∧ (sfind r.cache e = none → (getBrainClient r e).scheduledConnect = true)
    ∧ (∀ id, sfind r.cache e = some id →
        (getBrainClient r e).scheduledConnect = false
        ∧ (getBrainClient r e).registry = r
        ∧ (getBrainClient r e).client = id)
    ∧ RegistryInv (getBrainClient r e).registry := by
  obtain ⟨hBound, hNodup⟩ := hInv
  refine ⟨?_, ?_, ?_, ?_, ?_⟩
  · -- idempotence per endpoint
    cases he : sfind r.cache e with
    | some id => simp [getBrainClient, he]
    | none => simp [getBrainClient, he, sfind_jset_self]
  · -- distinct endpoints, distinct clients (under the invariant)
    cases he1 : sfind r.cache e1 with
    | some id1 =>
      have hid1 : id1 < r.nextId := hBound _ (sfind_mem _ _ _ he1)
      cases he2 : sfind r.cache e2 with
      | some id2 =>
        have : id1 ≠ id2 := sfind_values_ne r.cache e1 e2 id1 id2 hNodup hne he1 he2
        simp [getBrainClient, he1, he2]
        omega
      | none =>
        simp [getBrainClient, he1, he2]
        omega
    | none =>
      have hskip : sfind (jset r.cache e1 r.nextId) e2 = sfind r.cache e2 :=
        sfind_jset_ne r.cache e1 e2 r.nextId (Ne.symm hne)
      cases he2 : sfind r.cache e2 with
      | some id2 =>
        have hid2 : id2 < r.nextId := hBound _ (sfind_mem _ _ _ he2)
        simp [getBrainClient, he1, hskip, he2]
        omega
      | none =>
        simp [getBrainClient, he1, hskip, he2]
  · intro he
    simp [getBrainClient, he]
  · intro id he
    simp [getBrainClient, he]
  · -- the invariant is preserved
    cases he : sfind r.cache e with
    | some id => simpa [getBrainClient, he] using ⟨hBound, hNodup⟩
    | none =>
      have happ : jset r.cache e r.nextId = r.cache ++ [(e, r.nextId)] :=
        sfind_none_jset_append r.cache e r.nextId he
      have hnotin : r.nextId ∉ r.cache.map Prod.snd := by
        intro hmem
        obtain ⟨p, hp, hpe⟩ := List.mem_map.mp hmem
        have := hBound p hp
        omega
      have hreg : (getBrainClient r e).registry
          = { cache := r.cache ++ [(e, r.nextId)], nextId := r.nextId + 1 } := by
        simp [getBrainClient, he, happ]
      rw [hreg]
      constructor
      · intro p hp
        dsimp only at hp ⊢
        rcases List.mem_append.mp hp with hold | hnew
        · have := hBound p hold
          omega
        · simp only [List.mem_singleton] at hnew
          subst hnew
          omega
      · dsimp only
        rw [List.map_append]
        exact List.Nodup.append hNodup (List.nodup_singleton _)
          (by simpa [List.disjoint_singleton] using hnotin)

/-- C7 (witness). -/
theorem C7_registry_get_or_create_witness :
    ((getBrainClient (getBrainClient emptyRegistry "a").registry "a").client
        = (getBrainClient emptyRegistry "a").client
    ∧ (getBrainClient (getBrainClient emptyRegistry "a").registry "b").client
        ≠ (getBrainClient emptyRegistry "a").client
    ∧ (sfind emptyRegistry.cache "a" = none →
        (getBrainClient emptyRegistry "a").scheduledConnect = true)
    ∧ (∀ id, sfind emptyRegistry.cache "a" = some id →
        (getBrainClient emptyRegistry "a").scheduledConnect = false
        ∧ (getBrainClient emptyRegistry "a").registry = emptyRegistry
        ∧ (getBrainClient emptyRegistry "a").client = id)
    ∧ RegistryInv (getBrainClient emptyRegistry "a").registry) :=
  C7_registry_get_or_create emptyRegistry
    ⟨fun p hp => absurd hp (List.not_mem_nil p), List.nodup_nil⟩
    "a" "a" "b" (by decide)

/-- C8.  An explicit `disconnect()` empties the device map, sets the
manually-disconnected flag, and clears `_devicesEnumerated`; afterwards no
inbound `state_change_message` emits a per-device `STATE_CHANGED` event
(the dispatcher finds no device) and the client state is unchanged by such
messages.  The internal `_disconnect` used by the reconnect path leaves the
device map (and the manual flag) untouched, so subscriptions can be
re-armed. -/
theorem C8_disconnect_frame
    (c : Client) (did : String) (chs : List StateChange) :
    (disconnect c).devices = []
    ∧ (disconnect c).manuallyDisconnected = true
    ∧ (disconnect c).devicesEnumerated = false
    ∧ (incomingStateChangeMessage (disconnect c) did chs).2 = []
    ∧ (incomingStateChangeMessage (disconnect c) did chs).1 = disconnect c
    ∧ (internalDisconnect c).devices = c.devices
    ∧ (internalDisconnect c).manuallyDisconnected = c.manuallyDisconnected := by
  refine ⟨rfl, rfl, rfl, ?_, ?_, rfl, rfl⟩ <;>
    simp [disconnect, internalDisconnect, incomingStateChangeMessage, sfind]

/-- C9.  Starting from a device that has not yet requested a watch, any
sequence of subscription triggers (attaching `STATE_CHANGED` listeners,
awaited `getState`/`getStates` calls) sends at most one watch message —
resends are suppressed by `_watchStateRequested` — and removing the last
`STATE_CHANGED` listener sends exactly one unwatch message. -/
theorem C9_watch_idempotent_unwatch_once
    (d dOff : Device) (ops : List DevOp)
    (hTrig : ∀ op ∈ ops, isTrigger op = true)
    (hFresh : d.watchStateRequested = false)
    (hLast : dOff.stateChangedListeners = 1) :
    countWatch (devRun d ops).2 ≤ 1
    ∧ (devStep dOff .offStateChanged).2 = [DevMsg.unwatch dOff.id] := by
  constructor
  · have h := devRun_triggers_le d ops hTrig
    rw [hFresh] at h
    simpa using h
  · simp [devStep, unwatchStateChanges, hLast]

/-- C9 (witness). -/
theorem C9_watch_idempotent_unwatch_once_witness :
    countWatch (devRun devC1
      [DevOp.onStateChanged, DevOp.getStateAwait, DevOp.onStateChanged]).2 ≤ 1
    ∧ (devStep { id := "dev-1", stateChangedListeners := 1 }
        .offStateChanged).2 = [DevMsg.unwatch "dev-1"] :=
  C9_watch_idempotent_unwatch_once devC1
    { id := "dev-1", stateChangedListeners := 1 }
    [DevOp.onStateChanged, DevOp.getStateAwait, DevOp.onStateChanged]
    (by decide) (by decide) (by decide)

/-- C10 (counterexample).  The claim says every outbound operation built on
`sendData` — `watchStates` among them — silently no-ops while disconnected.
Not `watchStates` on a client whose watchdog was never created: on a fresh
client (or one whose bootstrap failed) — a state squarely inside the
claim's "WebSocket handle absent" condition — line 1429's
`this.watchdog.enable()` accesses a property of `undefined` and throws a
synchronous TypeError instead of returning normally. -/
theorem C10_watchStates_throws_without_watchdog :
    freshClient.ws = none
    ∧ freshClient.isConnected = false
    ∧ freshClient.watchdog = false
    ∧ watchStates freshClient "dev-1" [] false
        = .error "TypeError: this.watchdog is undefined" := by
  exact ⟨rfl, rfl, rfl, rfl⟩

/-- C10 (amended).  While the WebSocket handle is absent or `isConnected` is
false, `sendData` transmits nothing, throws nothing, and only records the
message in `_lastDataSent`; consequently `submitPin`,
`queryExpressModeEnabled`, and the device command / custom-state macro sends
all transmit nothing and return normally while disconnected.  `watchStates`
silently no-ops only on a client whose watchdog exists (i.e. some
`prepareConnection` bootstrap succeeded, BrainInfo.js line 533); on a client
without a watchdog it throws a TypeError at `this.watchdog.enable()`
(line 1429) before reaching `sendData`. -/
theorem C10_sendData_silent_drop_while_disconnected
    (c : Client) (hd : c.ws = none ∨ c.isConnected = false)
    (m : OutMessage) (pin did : String) (sts : List String) (uw : Bool)
    (dev : Device) (cmd : Command) (ps : List (String × String))
    (sid sn v : String) (hdid : did ≠ "") :
    sendData c m = ({ c with lastDataSent := some m }, [])
    ∧ (submitPin c pin).2 = []
    ∧ (queryExpressModeEnabled c).2 = []
    ∧ (c.watchdog = true →
        watchStates c did sts uw
          = .ok ({ c with lastDataSent := some (.wsWrapper "POST"
              "/api/v1/watch-states"
              (.watchStatesBody did sts (if uw then false else true))) }, []))
    ∧ (c.watchdog = false →
        watchStates c did sts uw = .error "TypeError: this.watchdog is undefined")
    ∧ (sendCommandSend c dev cmd ps).2 = []
    ∧ (setCustomStateSend c dev sid sn v).2 = [] := by
  have key : ∀ m' : OutMessage,
      sendData c m' = ({ c with lastDataSent := some m' }, []) := by
    intro m'
    unfold sendData
    rcases hd with h | h <;> simp [h]
  refine ⟨key m, ?_, ?_, ?_, ?_, ?_, ?_⟩
  · simp [submitPin, key]
  · simp [queryExpressModeEnabled, key]
  · intro hw
    unfold watchStates
    rw [if_neg hdid, if_pos hw, key]
  · intro hw
    unfold watchStates
    rw [if_neg hdid, if_neg (by simp [hw])]
  · simp [sendCommandSend, key]
  · simp [setCustomStateSend, key]

/-- C10 (witness). -/
theorem C10_sendData_silent_drop_witness :
    sendData offlineClient .getBrainStatMessage
        = ({ offlineClient with lastDataSent := some .getBrainStatMessage }, [])
    ∧ (submitPin offlineClient "1234").2 = []
    ∧ (queryExpressModeEnabled offlineClient).2 = []
    ∧ (offlineClient.watchdog = true →
        watchStates offlineClient "dev-1" [] false
          = .ok ({ offlineClient with lastDataSent := some (.wsWrapper "POST"
              "/api/v1/watch-states"
              (.watchStatesBody "dev-1" [] (if false then false else true))) }, []))
    ∧ (offlineClient.watchdog = false →
        watchStates offlineClient "dev-1" [] false
          = .error "TypeError: this.watchdog is undefined")
    ∧ (sendCommandSend offlineClient devC1 cmdC1 [("power", "ON")]).2 = []
    ∧ (setCustomStateSend offlineClient devC1 "CS1" "Custom One" "42").2 = [] :=
  C10_sendData_silent_drop_while_disconnected offlineClient (Or.inl rfl)
    .getBrainStatMessage "1234" "dev-1" [] false devC1 cmdC1
    [("power", "ON")] "CS1" "Custom One" "42" (by decide)

end BrainClientModel
